import Mathlib

/-!
Verification of the funding orchestration logic of the MintroAI backend
server: the POST /api/fund-address, GET /api/check-balance and
GET /api/funding-status handlers. Each handler is embedded as a pure
function from an environment (the outcomes the remote ledger would
return) to a result record carrying the HTTP status, the response body,
the list of ledger operations performed and the events broadcast.
-/

/-- Static per-network configuration, one entry of NETWORK_CONFIGS. -/
structure NetworkConfig where
  rpcUrl : String
  fundingAmount : String
  name : String
deriving DecidableEq, Repr

/-- Configuration of chain 97 in the registry. -/
def bscTestnet : NetworkConfig :=
  { rpcUrl := "https://data-seed-prebsc-1-s1.binance.org:8545"
    fundingAmount := "0.0025"
    name := "BSC Testnet" }

/-- Configuration of chain 1313161555 in the registry. -/
def auroraTestnet : NetworkConfig :=
  { rpcUrl := "https://testnet.aurora.dev"
    fundingAmount := "0.0025"
    name := "Aurora Testnet" }

/-- The static network registry of the server (NETWORK_CONFIGS). -/
def NETWORK_CONFIGS : List (String × NetworkConfig) :=
  [("97", bscTestnet), ("1313161555", auroraTestnet)]

/-- Key lookup in a JS object literal, modelled as association-list lookup. -/
def lookupConfig (registry : List (String × NetworkConfig)) (cid : String) :
    Option NetworkConfig :=
  match registry with
  | [] => none
  | p :: rest => if p.1 = cid then some p.2 else lookupConfig rest cid

/-- JavaScript falsiness of an optional string parameter: absent or empty. -/
def jsFalsy : Option String → Bool
  | none => true
  | some s => s.isEmpty

/-- Numeric value of a decimal digit character. -/
def digitVal (c : Char) : Option Nat :=
  if c.isDigit then some (c.toNat - 48) else none

/-- Parse a run of decimal digits into a natural number (empty run gives 0). -/
def parseDigits (cs : List Char) : Option Nat :=
  cs.foldl
    (fun acc c =>
      match acc, digitVal c with
      | some a, some d => some (a * 10 + d)
      | _, _ => none)
    (some 0)

/-- Split a character list at every dot, keeping empty segments. -/
def splitOnDot : List Char → List (List Char)
  | [] => [[]]
  | c :: rest =>
    let r := splitOnDot rest
    if c = '.' then [] :: r
    else
      match r with
      | [] => [[c]]
      | h :: t => (c :: h) :: t

/-- Wei per whole ether unit. -/
def weiPerEther : Nat := 10 ^ 18

/-- Parse a decimal string into wei with 18 decimal places, as
ethers.parseEther does on well-formed non-negative inputs. -/
def parseUnits18 (s : String) : Option Nat :=
  match splitOnDot s.toList with
  | [w] => (parseDigits w).map (fun n => n * weiPerEther)
  | [w, f] =>
    if f.length = 0 ∨ 18 < f.length then none
    else
      match parseDigits w, parseDigits f with
      | some wv, some fv => some (wv * weiPerEther + fv * 10 ^ (18 - f.length))
      | _, _ => none
  | _ => none

/-- Total wrapper used by the handlers: configured amounts always parse. -/
def parseEther (s : String) : Nat :=
  (parseUnits18 s).getD 0

/-- Error thrown by the ethers library: an optional error code plus message. -/
structure JsError where
  code : Option String
  message : String
deriving DecidableEq, Repr

/-- A submitted transaction as returned by sendTransaction. -/
structure Tx where
  hash : String
deriving DecidableEq, Repr

/-- A confirmation receipt as returned by tx.wait. -/
structure Receipt where
  blockNumber : Nat
deriving DecidableEq, Repr

/-- One remote-ledger operation performed during a request. -/
inductive LedgerCall where
  | queryBalance (addr : String)
  | submitTransfer (dest : String) (valueWei : Nat)
  | awaitConfirm
deriving DecidableEq, Repr

/-- An event broadcast to the connected WebSocket observers. -/
inductive WsEvent where
  | addressFunded (address chainId amount txHash : String)
deriving DecidableEq, Repr

/-- Response bodies the fund-address handler can produce. -/
inductive FundResponse where
  | missingParams
  | invalidAddress
  | unsupportedChain (chainId : String)
  | notConfigured
  | funderUnderfunded
  | alreadyFunded (balanceWei : Nat)
  | funded (txHash : String) (blockNumber : Nat) (amount : String)
  | insufficientFundsError
  | networkError
  | fundingFailed (details : String)
deriving DecidableEq, Repr

/-- Result of one fund-address request: HTTP status, body, the ledger
operations attempted, and the events broadcast. -/
structure FundResult where
  status : Nat
  body : FundResponse
  calls : List LedgerCall
  events : List WsEvent
deriving DecidableEq, Repr

/-- Environment of a fund-address request: the request-independent inputs
(the validity verdict of ethers.isAddress, the environment variable) and
the outcome each remote-ledger call would have. -/
structure FundEnv where
  isValidAddress : Bool
  funderKey : Option String
  funderAddress : String
  funderBalance : Except JsError Nat
  targetBalance : Except JsError Nat
  sendResult : Except JsError Tx
  waitResult : Except JsError Receipt

/-- The catch block of the fund-address handler: map a thrown error to an
HTTP status and body by inspecting its code. -/
def catchFund (e : JsError) : Nat × FundResponse :=
  if e.code = some "INSUFFICIENT_FUNDS" then (500, FundResponse.insufficientFundsError)
  else if e.code = some "NETWORK_ERROR" then (500, FundResponse.networkError)
  else (500, FundResponse.fundingFailed e.message)

/-- Steps 4 to 7 of the fund pipeline, entered once validation, registry
lookup and the secret-presence check have passed: query the custodian
balance, compare with the configured amount, query the target balance,
compare with half the amount, then submit and confirm the transfer. -/
def fundLedger (env : FundEnv) (cfg : NetworkConfig) (addr cid : String) :
    FundResult :=
  match env.funderBalance with
  | Except.error e =>
    { status := (catchFund e).1, body := (catchFund e).2
      calls := [LedgerCall.queryBalance env.funderAddress], events := [] }
  | Except.ok funderBalance =>
    let fundingAmount := parseEther cfg.fundingAmount
    if funderBalance < fundingAmount then
      { status := 500, body := FundResponse.funderUnderfunded
        calls := [LedgerCall.queryBalance env.funderAddress], events := [] }
    else
      match env.targetBalance with
      | Except.error e =>
        { status := (catchFund e).1, body := (catchFund e).2
          calls := [LedgerCall.queryBalance env.funderAddress,
                    LedgerCall.queryBalance addr]
          events := [] }
      | Except.ok addressBalance =>
        let minimumBalance := fundingAmount / 2
        if minimumBalance ≤ addressBalance then
          { status := 200, body := FundResponse.alreadyFunded addressBalance
            calls := [LedgerCall.queryBalance env.funderAddress,
                      LedgerCall.queryBalance addr]
            events := [] }
        else
          match env.sendResult with
          | Except.error e =>
            { status := (catchFund e).1, body := (catchFund e).2
              calls := [LedgerCall.queryBalance env.funderAddress,
                        LedgerCall.queryBalance addr,
                        LedgerCall.submitTransfer addr fundingAmount]
              events := [] }
          | Except.ok tx =>
            match env.waitResult with
            | Except.error e =>
              { status := (catchFund e).1, body := (catchFund e).2
                calls := [LedgerCall.queryBalance env.funderAddress,
                          LedgerCall.queryBalance addr,
                          LedgerCall.submitTransfer addr fundingAmount,
                          LedgerCall.awaitConfirm]
                events := [] }
            | Except.ok receipt =>
              { status := 200
                body := FundResponse.funded tx.hash receipt.blockNumber
                          cfg.fundingAmount
                calls := [LedgerCall.queryBalance env.funderAddress,
                          LedgerCall.queryBalance addr,
                          LedgerCall.submitTransfer addr fundingAmount,
                          LedgerCall.awaitConfirm]
                events := [WsEvent.addressFunded addr cid cfg.fundingAmount
                             tx.hash] }

/-- The POST /api/fund-address handler: presence check of both body
parameters, syntactic address validation, registry lookup, secret
presence, then the ledger phase. -/
def fund (registry : List (String × NetworkConfig)) (env : FundEnv)
    (address chainId : Option String) : FundResult :=
  if jsFalsy address || jsFalsy chainId then
    { status := 400, body := FundResponse.missingParams, calls := [], events := [] }
  else if !env.isValidAddress then
    { status := 400, body := FundResponse.invalidAddress, calls := [], events := [] }
  else
    match lookupConfig registry (chainId.getD "") with
    | none =>
      { status := 400, body := FundResponse.unsupportedChain (chainId.getD "")
        calls := [], events := [] }
    | some cfg =>
      if jsFalsy env.funderKey then
        { status := 500, body := FundResponse.notConfigured
          calls := [], events := [] }
      else
        fundLedger env cfg (address.getD "") (chainId.getD "")

/-- Whether a ledger operation is an outbound transfer submission. -/
def isTransfer : LedgerCall → Bool
  | LedgerCall.submitTransfer _ _ => true
  | _ => false

/-- Number of outbound transfers submitted in a trace. -/
def transferCount (calls : List LedgerCall) : Nat :=
  calls.countP isTransfer

/-- Environment of a check-balance request: the outcome the single ledger
balance query would have. -/
structure CheckEnv where
  balanceResult : Except JsError Nat

/-- Response bodies the check-balance handler can produce. -/
inductive CheckResponse where
  | missingParams
  | unsupportedChain (chainId : String)
  | ok (address chainId : String) (balanceWei : Nat) (network : String)
  | failedCheck (details : String)
deriving DecidableEq, Repr

/-- Result of one check-balance request. -/
structure CheckResult where
  status : Nat
  body : CheckResponse
  calls : List LedgerCall
deriving DecidableEq, Repr

/-- The GET /api/check-balance handler: presence check of both query
parameters, registry lookup, then the balance query, with the catch block
mapping any thrown error to a generic 500 response. The handler performs
no syntactic validation of the address. -/
def checkBalance (registry : List (String × NetworkConfig)) (env : CheckEnv)
    (address chainId : Option String) : CheckResult :=
  if jsFalsy address || jsFalsy chainId then
    { status := 400, body := CheckResponse.missingParams, calls := [] }
  else
    match lookupConfig registry (chainId.getD "") with
    | none =>
      { status := 400, body := CheckResponse.unsupportedChain (chainId.getD "")
        calls := [] }
    | some cfg =>
      match env.balanceResult with
      | Except.ok b =>
        { status := 200
          body := CheckResponse.ok (address.getD "") (chainId.getD "") b cfg.name
          calls := [LedgerCall.queryBalance (address.getD "")] }
      | Except.error e =>
        { status := 500, body := CheckResponse.failedCheck e.message
          calls := [LedgerCall.queryBalance (address.getD "")] }

/-- Environment of a funding-status request: the environment variable, the
custodian address derived from it, and the outcome of the balance query on
each network, keyed by chain id. -/
structure StatusEnv where
  funderKey : Option String
  funderAddress : String
  balanceOn : String → Except JsError Nat

/-- Per-network entry of the funding-status aggregation: either the full
data or an error marker. -/
inductive NetworkStatus where
  | ok (network : String) (balanceWei : Nat) (fundingAmount : String)
      (canFund : Bool)
  | err (network : String)
deriving DecidableEq, Repr

/-- Response bodies the funding-status handler can produce. -/
inductive StatusResponse where
  | notConfigured
  | configured (funderAddress : String)
      (balances : List (String × NetworkStatus))
deriving DecidableEq, Repr

/-- Result of one funding-status request. -/
structure StatusResult where
  status : Nat
  body : StatusResponse
  calls : List LedgerCall
deriving DecidableEq, Repr

/-- One iteration of the funding-status loop: query the custodian balance
on that network, producing full data on success and an error entry when
the query throws. -/
def statusEntry (env : StatusEnv) (p : String × NetworkConfig) :
    String × NetworkStatus :=
  match env.balanceOn p.1 with
  | Except.ok b =>
    (p.1, NetworkStatus.ok p.2.name b p.2.fundingAmount
      (decide (parseEther p.2.fundingAmount ≤ b)))
  | Except.error _ => (p.1, NetworkStatus.err p.2.name)

/-- The GET /api/funding-status handler: return not-configured immediately
when the secret is absent, otherwise iterate the registry, tolerating
per-network failures. -/
def fundingStatus (registry : List (String × NetworkConfig))
    (env : StatusEnv) : StatusResult :=
  if jsFalsy env.funderKey then
    { status := 200, body := StatusResponse.notConfigured, calls := [] }
  else
    { status := 200
      body := StatusResponse.configured env.funderAddress
                (registry.map (statusEntry env))
      calls := registry.map (fun _ => LedgerCall.queryBalance env.funderAddress) }

/-- A well-formed test address. -/
def addrOk : String := "0x1234567890abcdef1234567890abcdef12345678"

/-- A malformed test address. -/
def addrBad : String := "not-an-address"

/-- A test transaction returned by a successful submission. -/
def txFix : Tx := { hash := "0xabc123" }

/-- A test receipt returned by a successful confirmation wait. -/
def rcptFix : Receipt := { blockNumber := 4242 }

/-- A transport error without a recognized code. -/
def errDown : JsError := { code := none, message := "connection refused" }

/-- An error carrying the INSUFFICIENT_FUNDS code. -/
def errInsufficient : JsError :=
  { code := some "INSUFFICIENT_FUNDS", message := "insufficient funds" }

/-- Environment of a fully successful funding run. -/
def envFunded : FundEnv :=
  { isValidAddress := true
    funderKey := some "0xsecret"
    funderAddress := "0xFunder"
    funderBalance := Except.ok (parseEther "1.0")
    targetBalance := Except.ok 0
    sendResult := Except.ok txFix
    waitResult := Except.ok rcptFix }

/-- The successful run again, differing only in the confirming block. -/
def envFundedAltBlock : FundEnv :=
  { envFunded with waitResult := Except.ok { blockNumber := 9999 } }

/-- Environment whose address fails syntactic validation. -/
def envInvalidAddr : FundEnv := { envFunded with isValidAddress := false }

/-- Environment with no custodial secret configured. -/
def envNoKey : FundEnv := { envFunded with funderKey := none }

/-- Environment whose custodian holds less than the funding amount. -/
def envUnderfunded : FundEnv := { envFunded with funderBalance := Except.ok 0 }

/-- Environment whose target already holds exactly half the amount. -/
def envAlreadyHalf : FundEnv :=
  { envFunded with targetBalance := Except.ok (parseEther "0.0025" / 2) }

/-- Environment whose target holds one wei below half the amount. -/
def envBelowHalf : FundEnv :=
  { envFunded with targetBalance := Except.ok (parseEther "0.0025" / 2 - 1) }

/-- Environment whose transfer submission throws a transport error. -/
def envSendFails : FundEnv :=
  { envFunded with sendResult := Except.error errDown }

/-- Status environment in which chain 97 is unreachable and the other
network answers with one whole unit of balance. -/
def statusEnvMixed : StatusEnv :=
  { funderKey := some "0xsecret"
    funderAddress := "0xFunder"
    balanceOn := fun cid =>
      if cid = "97" then Except.error errDown
      else Except.ok (parseEther "1.0") }

/-- Status environment with no custodial secret configured. -/
def statusEnvNoKey : StatusEnv := { statusEnvMixed with funderKey := none }

/-- Check-balance environment whose ledger query throws. -/
def cenvErr : CheckEnv := { balanceResult := Except.error errDown }

/-- Check-balance environment whose ledger query answers 7 wei. -/
def cenvOk : CheckEnv := { balanceResult := Except.ok 7 }

/-- A network whose funding amount is an odd number of wei: 3 wei. -/
def oddCfg : NetworkConfig :=
  { rpcUrl := "http://localhost:1"
    fundingAmount := "0.000000000000000003"
    name := "Odd Net" }

/-- A one-entry registry holding the odd-amount network. -/
def oddRegistry : List (String × NetworkConfig) := [("1", oddCfg)]

/-- Environment for the odd-amount network: custodian holds 10 wei, the
target holds 1 wei, the floor of half of 3. -/
def envOddHalf : FundEnv :=
  { envFunded with
    funderBalance := Except.ok 10
    targetBalance := Except.ok 1 }

/-- The catch block always answers with HTTP status 500. -/
theorem catchFund_status (e : JsError) : (catchFund e).1 = 500 := by
  unfold catchFund
  repeat' split
  all_goals rfl

/-- An error with neither recognized code maps to the generic response. -/
theorem catchFund_generic (e : JsError)
    (h1 : e.code ≠ some "INSUFFICIENT_FUNDS")
    (h2 : e.code ≠ some "NETWORK_ERROR") :
    catchFund e = (500, FundResponse.fundingFailed e.message) := by
  unfold catchFund
  rw [if_neg h1, if_neg h2]

/-- With both parameters present, an invalid address short-circuits the
handler with a 400 response and no effects. -/
theorem fund_invalid (registry : List (String × NetworkConfig))
    (env : FundEnv) (address chainId : Option String)
    (h1 : jsFalsy address = false) (h2 : jsFalsy chainId = false)
    (h3 : env.isValidAddress = false) :
    fund registry env address chainId
      = { status := 400, body := FundResponse.invalidAddress
          calls := [], events := [] } := by
  unfold fund
  rw [h1, h2, h3]
  simp

/-- With a valid address but an unknown chain id, the handler answers 400
with no effects. -/
theorem fund_unsupported (registry : List (String × NetworkConfig))
    (env : FundEnv) (address chainId : Option String)
    (h1 : jsFalsy address = false) (h2 : jsFalsy chainId = false)
    (h3 : env.isValidAddress = true)
    (h4 : lookupConfig registry (chainId.getD "") = none) :
    fund registry env address chainId
      = { status := 400, body := FundResponse.unsupportedChain (chainId.getD "")
          calls := [], events := [] } := by
  unfold fund
  rw [h1, h2, h3, h4]
  simp

/-- With validation and lookup passed but no secret configured, the
handler answers 500 with no effects. -/
theorem fund_noKey (registry : List (String × NetworkConfig))
    (env : FundEnv) (address chainId : Option String)
    (cfg : NetworkConfig)
    (h1 : jsFalsy address = false) (h2 : jsFalsy chainId = false)
    (h3 : env.isValidAddress = true)
    (h4 : lookupConfig registry (chainId.getD "") = some cfg)
    (h5 : jsFalsy env.funderKey = true) :
    fund registry env address chainId
      = { status := 500, body := FundResponse.notConfigured
          calls := [], events := [] } := by
  unfold fund
  rw [h1, h2, h3, h4, h5]
  simp

/-- Once the three guard checks pass, the handler runs the ledger phase. -/
theorem fund_entry (registry : List (String × NetworkConfig))
    (env : FundEnv) (address chainId : Option String)
    (cfg : NetworkConfig)
    (h1 : jsFalsy address = false) (h2 : jsFalsy chainId = false)
    (h3 : env.isValidAddress = true)
    (h4 : lookupConfig registry (chainId.getD "") = some cfg)
    (h5 : jsFalsy env.funderKey = false) :
    fund registry env address chainId
      = fundLedger env cfg (address.getD "") (chainId.getD "") := by
  unfold fund
  rw [h1, h2, h3, h4, h5]
  simp

/-- A throwing custodian-balance query ends the ledger phase at the catch
block, after a single ledger operation. -/
theorem fundLedger_funderErr (env : FundEnv) (cfg : NetworkConfig)
    (a c : String) (e : JsError)
    (h : env.funderBalance = Except.error e) :
    fundLedger env cfg a c
      = { status := 500, body := (catchFund e).2
          calls := [LedgerCall.queryBalance env.funderAddress]
          events := [] } := by
  unfold fundLedger
  rw [h]
  simp [catchFund_status e]

/-- A custodian balance below the funding amount ends the ledger phase
with the underfunded rejection, after a single ledger operation. -/
theorem fundLedger_underfunded (env : FundEnv) (cfg : NetworkConfig)
    (a c : String) (fb : Nat)
    (h : env.funderBalance = Except.ok fb)
    (hlt : fb < parseEther cfg.fundingAmount) :
    fundLedger env cfg a c
      = { status := 500, body := FundResponse.funderUnderfunded
          calls := [LedgerCall.queryBalance env.funderAddress]
          events := [] } := by
  unfold fundLedger
  rw [h]
  simp [hlt]

/-- A throwing target-balance query ends the ledger phase at the catch
block, after the two balance queries. -/
theorem fundLedger_targetErr (env : FundEnv) (cfg : NetworkConfig)
    (a c : String) (fb : Nat) (e : JsError)
    (h : env.funderBalance = Except.ok fb)
    (hge : parseEther cfg.fundingAmount ≤ fb)
    (ht : env.targetBalance = Except.error e) :
    fundLedger env cfg a c
      = { status := 500, body := (catchFund e).2
          calls := [LedgerCall.queryBalance env.funderAddress,
                    LedgerCall.queryBalance a]
          events := [] } := by
  unfold fundLedger
  rw [h, ht]
  simp [Nat.not_lt.mpr hge, catchFund_status e]

/-- A target balance at or above half the funding amount ends the ledger
phase with the already-funded response, after the two balance queries. -/
theorem fundLedger_already (env : FundEnv) (cfg : NetworkConfig)
    (a c : String) (fb b : Nat)
    (h : env.funderBalance = Except.ok fb)
    (hge : parseEther cfg.fundingAmount ≤ fb)
    (ht : env.targetBalance = Except.ok b)
    (hb : parseEther cfg.fundingAmount / 2 ≤ b) :
    fundLedger env cfg a c
      = { status := 200, body := FundResponse.alreadyFunded b
          calls := [LedgerCall.queryBalance env.funderAddress,
                    LedgerCall.queryBalance a]
          events := [] } := by
  unfold fundLedger
  rw [h, ht]
  simp [Nat.not_lt.mpr hge, hb]

/-- A throwing submission ends the ledger phase at the catch block, after
both balance queries and the submission attempt. -/
theorem fundLedger_sendErr (env : FundEnv) (cfg : NetworkConfig)
    (a c : String) (fb b : Nat) (e : JsError)
    (h : env.funderBalance = Except.ok fb)
    (hge : parseEther cfg.fundingAmount ≤ fb)
    (ht : env.targetBalance = Except.ok b)
    (hb : b < parseEther cfg.fundingAmount / 2)
    (hs : env.sendResult = Except.error e) :
    fundLedger env cfg a c
      = { status := 500, body := (catchFund e).2
          calls := [LedgerCall.queryBalance env.funderAddress,
                    LedgerCall.queryBalance a,
                    LedgerCall.submitTransfer a (parseEther cfg.fundingAmount)]
          events := [] } := by
  unfold fundLedger
  rw [h, ht, hs]
  simp [Nat.not_lt.mpr hge, Nat.not_le.mpr hb, catchFund_status e]

/-- A throwing confirmation wait ends the ledger phase at the catch block,
after all four ledger operations. -/
theorem fundLedger_waitErr (env : FundEnv) (cfg : NetworkConfig)
    (a c : String) (fb b : Nat) (tx : Tx) (e : JsError)
    (h : env.funderBalance = Except.ok fb)
    (hge : parseEther cfg.fundingAmount ≤ fb)
    (ht : env.targetBalance = Except.ok b)
    (hb : b < parseEther cfg.fundingAmount / 2)
    (hs : env.sendResult = Except.ok tx)
    (hw : env.waitResult = Except.error e) :
    fundLedger env cfg a c
      = { status := 500, body := (catchFund e).2
          calls := [LedgerCall.queryBalance env.funderAddress,
                    LedgerCall.queryBalance a,
                    LedgerCall.submitTransfer a (parseEther cfg.fundingAmount),
                    LedgerCall.awaitConfirm]
          events := [] } := by
  unfold fundLedger
  rw [h, ht, hs, hw]
  simp [Nat.not_lt.mpr hge, Nat.not_le.mpr hb, catchFund_status e]

/-- A completed pipeline returns the funded response, records the four
ledger operations in order, and broadcasts the addressFunded event. -/
theorem fundLedger_success (env : FundEnv) (cfg : NetworkConfig)
    (a c : String) (fb b : Nat) (tx : Tx) (rcpt : Receipt)
    (h : env.funderBalance = Except.ok fb)
    (hge : parseEther cfg.fundingAmount ≤ fb)
    (ht : env.targetBalance = Except.ok b)
    (hb : b < parseEther cfg.fundingAmount / 2)
    (hs : env.sendResult = Except.ok tx)
    (hw : env.waitResult = Except.ok rcpt) :
    fundLedger env cfg a c
      = { status := 200
          body := FundResponse.funded tx.hash rcpt.blockNumber cfg.fundingAmount
          calls := [LedgerCall.queryBalance env.funderAddress,
                    LedgerCall.queryBalance a,
                    LedgerCall.submitTransfer a (parseEther cfg.fundingAmount),
                    LedgerCall.awaitConfirm]
          events := [WsEvent.addressFunded a c cfg.fundingAmount tx.hash] } := by
  unfold fundLedger
  rw [h, ht, hs, hw]
  simp [Nat.not_lt.mpr hge, Nat.not_le.mpr hb]

/-- Every trace the handler can produce contains at most one transfer
submission. -/
theorem transferCount_fund_le_one (registry : List (String × NetworkConfig))
    (env : FundEnv) (address chainId : Option String) :
    transferCount (fund registry env address chainId).calls ≤ 1 := by
  unfold fund fundLedger
  repeat' split
  all_goals dsimp only
  all_goals try split_ifs
  all_goals
    simp [transferCount, List.countP_cons, List.countP_nil, isTransfer]

/-- Claim C2: the fund operation is a sequential pipeline with early
exits, in order: address validation, registry lookup, secret presence,
custodian affordability, target idempotency, then submission and
confirmation; the first failing check produces its rejection and no later
step runs, and no ledger call is made when validation, lookup or the
secret-presence check fails. -/
theorem fund_pipeline_early_exits
    (registry : List (String × NetworkConfig)) (env : FundEnv)
    (address chainId : Option String)
    (h1 : jsFalsy address = false) (h2 : jsFalsy chainId = false) :
    (env.isValidAddress = false →
      fund registry env address chainId
        = { status := 400, body := FundResponse.invalidAddress
            calls := [], events := [] }) ∧
    (env.isValidAddress = true →
      lookupConfig registry (chainId.getD "") = none →
      fund registry env address chainId
        = { status := 400
            body := FundResponse.unsupportedChain (chainId.getD "")
            calls := [], events := [] }) ∧
    (∀ cfg : NetworkConfig, env.isValidAddress = true →
      lookupConfig registry (chainId.getD "") = some cfg →
      jsFalsy env.funderKey = true →
      fund registry env address chainId
        = { status := 500, body := FundResponse.notConfigured
            calls := [], events := [] }) ∧
    (∀ (cfg : NetworkConfig) (fb : Nat), env.isValidAddress = true →
      lookupConfig registry (chainId.getD "") = some cfg →
      jsFalsy env.funderKey = false →
      env.funderBalance = Except.ok fb →
      fb < parseEther cfg.fundingAmount →
      fund registry env address chainId
        = { status := 500, body := FundResponse.funderUnderfunded
            calls := [LedgerCall.queryBalance env.funderAddress]
            events := [] }) ∧
    (∀ (cfg : NetworkConfig) (fb b : Nat), env.isValidAddress = true →
      lookupConfig registry (chainId.getD "") = some cfg →
      jsFalsy env.funderKey = false →
      env.funderBalance = Except.ok fb →
      parseEther cfg.fundingAmount ≤ fb →
      env.targetBalance = Except.ok b →
      parseEther cfg.fundingAmount / 2 ≤ b →
      fund registry env address chainId
        = { status := 200, body := FundResponse.alreadyFunded b
            calls := [LedgerCall.queryBalance env.funderAddress,
                      LedgerCall.queryBalance (address.getD "")]
            events := [] }) ∧
    (∀ (cfg : NetworkConfig) (fb b : Nat) (tx : Tx) (rcpt : Receipt),
      env.isValidAddress = true →
      lookupConfig registry (chainId.getD "") = some cfg →
      jsFalsy env.funderKey = false →
      env.funderBalance = Except.ok fb →
      parseEther cfg.fundingAmount ≤ fb →
      env.targetBalance = Except.ok b →
      b < parseEther cfg.fundingAmount / 2 →
      env.sendResult = Except.ok tx →
      env.waitResult = Except.ok rcpt →
      (fund registry env address chainId).calls
        = [LedgerCall.queryBalance env.funderAddress,
           LedgerCall.queryBalance (address.getD ""),
           LedgerCall.submitTransfer (address.getD "")
             (parseEther cfg.fundingAmount),
           LedgerCall.awaitConfirm]) := by
  refine ⟨?_, ?_, ?_, ?_, ?_, ?_⟩
  · exact fun h3 => fund_invalid registry env address chainId h1 h2 h3
  · exact fun h3 h4 => fund_unsupported registry env address chainId h1 h2 h3 h4
  · exact fun cfg h3 h4 h5 => fund_noKey registry env address chainId cfg h1 h2 h3 h4 h5
  · intro cfg fb h3 h4 h5 h6 h7
    rw [fund_entry registry env address chainId cfg h1 h2 h3 h4 h5]
    exact fundLedger_underfunded env cfg _ _ fb h6 h7
  · intro cfg fb b h3 h4 h5 h6 h7 h8 h9
    rw [fund_entry registry env address chainId cfg h1 h2 h3 h4 h5]
    exact fundLedger_already env cfg _ _ fb b h6 h7 h8 h9
  · intro cfg fb b tx rcpt h3 h4 h5 h6 h7 h8 h9 h10 h11
    rw [fund_entry registry env address chainId cfg h1 h2 h3 h4 h5,
        fundLedger_success env cfg _ _ fb b tx rcpt h6 h7 h8 h9 h10 h11]

/-- Witness for the pipeline theorem at concrete runs on the real
registry: one per early exit and one full run. -/
theorem fund_pipeline_early_exits_witness :
    fund NETWORK_CONFIGS envInvalidAddr (some addrBad) (some "97")
      = { status := 400, body := FundResponse.invalidAddress
          calls := [], events := [] } ∧
    fund NETWORK_CONFIGS envFunded (some addrOk) (some "42")
      = { status := 400, body := FundResponse.unsupportedChain "42"
          calls := [], events := [] } ∧
    fund NETWORK_CONFIGS envNoKey (some addrOk) (some "97")
      = { status := 500, body := FundResponse.notConfigured
          calls := [], events := [] } ∧
    fund NETWORK_CONFIGS envUnderfunded (some addrOk) (some "97")
      = { status := 500, body := FundResponse.funderUnderfunded
          calls := [LedgerCall.queryBalance "0xFunder"], events := [] } ∧
    fund NETWORK_CONFIGS envAlreadyHalf (some addrOk) (some "97")
      = { status := 200
          body := FundResponse.alreadyFunded (parseEther "0.0025" / 2)
          calls := [LedgerCall.queryBalance "0xFunder",
                    LedgerCall.queryBalance addrOk]
          events := [] } ∧
    (fund NETWORK_CONFIGS envFunded (some addrOk) (some "97")).calls
      = [LedgerCall.queryBalance "0xFunder",
         LedgerCall.queryBalance addrOk,
         LedgerCall.submitTransfer addrOk (parseEther "0.0025"),
         LedgerCall.awaitConfirm] := by
  refine ⟨?_, ?_, ?_, ?_, ?_, ?_⟩
  · exact (fund_pipeline_early_exits NETWORK_CONFIGS envInvalidAddr
      (some addrBad) (some "97") (by decide) (by decide)).1 rfl
  · exact (fund_pipeline_early_exits NETWORK_CONFIGS envFunded
      (some addrOk) (some "42") (by decide) (by decide)).2.1 rfl (by decide)
  · exact (fund_pipeline_early_exits NETWORK_CONFIGS envNoKey
      (some addrOk) (some "97") (by decide) (by decide)).2.2.1
      bscTestnet rfl (by decide) (by decide)
  · exact (fund_pipeline_early_exits NETWORK_CONFIGS envUnderfunded
      (some addrOk) (some "97") (by decide) (by decide)).2.2.2.1
      bscTestnet 0 rfl (by decide) (by decide) rfl (by decide)
  · exact (fund_pipeline_early_exits NETWORK_CONFIGS envAlreadyHalf
      (some addrOk) (some "97") (by decide) (by decide)).2.2.2.2.1
      bscTestnet (parseEther "1.0") (parseEther "0.0025" / 2)
      rfl (by decide) (by decide) rfl (by decide) rfl (by decide)
  · exact (fund_pipeline_early_exits NETWORK_CONFIGS envFunded
      (some addrOk) (some "97") (by decide) (by decide)).2.2.2.2.2
      bscTestnet (parseEther "1.0") 0 txFix rcptFix
      rfl (by decide) (by decide) rfl (by decide) rfl (by decide) rfl rfl

/-- Claim C4: a custodian balance strictly below the funding amount
produces the 500 underfunded rejection; the trace holds exactly the one
custodian balance query, so the target balance is never queried and no
transfer is submitted, whatever the target-balance outcome would be. -/
theorem fund_underfunded_custodian
    (registry : List (String × NetworkConfig)) (env : FundEnv)
    (address chainId : Option String) (cfg : NetworkConfig) (fb : Nat)
    (h1 : jsFalsy address = false) (h2 : jsFalsy chainId = false)
    (h3 : env.isValidAddress = true)
    (h4 : lookupConfig registry (chainId.getD "") = some cfg)
    (h5 : jsFalsy env.funderKey = false)
    (h6 : env.funderBalance = Except.ok fb)
    (h7 : fb < parseEther cfg.fundingAmount) :
    (fund registry env address chainId).status = 500 ∧
    (fund registry env address chainId).body
      = FundResponse.funderUnderfunded ∧
    (fund registry env address chainId).calls
      = [LedgerCall.queryBalance env.funderAddress] ∧
    transferCount (fund registry env address chainId).calls = 0 := by
  rw [fund_entry registry env address chainId cfg h1 h2 h3 h4 h5,
      fundLedger_underfunded env cfg _ _ fb h6 h7]
  refine ⟨rfl, rfl, rfl, ?_⟩
  simp [transferCount, List.countP_cons, List.countP_nil, isTransfer]

/-- Witness for the underfunded-custodian theorem: custodian balance 0 on
chain 97 against a target whose balance would be 0. -/
theorem fund_underfunded_custodian_witness :
    (fund NETWORK_CONFIGS envUnderfunded (some addrOk) (some "97")).status
      = 500 ∧
    (fund NETWORK_CONFIGS envUnderfunded (some addrOk) (some "97")).body
      = FundResponse.funderUnderfunded ∧
    (fund NETWORK_CONFIGS envUnderfunded (some addrOk) (some "97")).calls
      = [LedgerCall.queryBalance "0xFunder"] ∧
    transferCount
      (fund NETWORK_CONFIGS envUnderfunded (some addrOk) (some "97")).calls
      = 0 :=
  fund_underfunded_custodian NETWORK_CONFIGS envUnderfunded
    (some addrOk) (some "97") bscTestnet 0
    (by decide) (by decide) rfl (by decide) (by decide) rfl (by decide)

/-- Claim C5: with no custodial secret, the fund operation returns the
not-configured rejection and the funding-status operation reports
configured false, both with an empty ledger trace. -/
theorem unconfigured_fund_and_status
    (registry : List (String × NetworkConfig)) (fenv : FundEnv)
    (senv : StatusEnv) (address chainId : Option String)
    (cfg : NetworkConfig)
    (h1 : jsFalsy address = false) (h2 : jsFalsy chainId = false)
    (h3 : fenv.isValidAddress = true)
    (h4 : lookupConfig registry (chainId.getD "") = some cfg)
    (hkey : jsFalsy fenv.funderKey = true)
    (hskey : jsFalsy senv.funderKey = true) :
    fund registry fenv address chainId
      = { status := 500, body := FundResponse.notConfigured
          calls := [], events := [] } ∧
    fundingStatus registry senv
      = { status := 200, body := StatusResponse.notConfigured
          calls := [] } := by
  constructor
  · exact fund_noKey registry fenv address chainId cfg h1 h2 h3 h4 hkey
  · unfold fundingStatus
    rw [hskey]
    simp

/-- Witness for the unconfigured-service theorem on the real registry. -/
theorem unconfigured_fund_and_status_witness :
    fund NETWORK_CONFIGS envNoKey (some addrOk) (some "97")
      = { status := 500, body := FundResponse.notConfigured
          calls := [], events := [] } ∧
    fundingStatus NETWORK_CONFIGS statusEnvNoKey
      = { status := 200, body := StatusResponse.notConfigured
          calls := [] } :=
  unconfigured_fund_and_status NETWORK_CONFIGS envNoKey statusEnvNoKey
    (some addrOk) (some "97") bscTestnet
    (by decide) (by decide) rfl (by decide) (by decide) (by decide)

/-- Claim C6: an unsupported chain id makes both the fund and the
check-balance operations answer 400 naming the chain, with an empty
ledger trace. -/
theorem unsupported_chain_validation_error
    (registry : List (String × NetworkConfig)) (fenv : FundEnv)
    (cenv : CheckEnv) (address chainId : Option String)
    (h1 : jsFalsy address = false) (h2 : jsFalsy chainId = false)
    (h3 : fenv.isValidAddress = true)
    (h4 : lookupConfig registry (chainId.getD "") = none) :
    fund registry fenv address chainId
      = { status := 400
          body := FundResponse.unsupportedChain (chainId.getD "")
          calls := [], events := [] } ∧
    checkBalance registry cenv address chainId
      = { status := 400
          body := CheckResponse.unsupportedChain (chainId.getD "")
          calls := [] } := by
  constructor
  · exact fund_unsupported registry fenv address chainId h1 h2 h3 h4
  · unfold checkBalance
    rw [h1, h2, h4]
    simp

/-- Witness for the unsupported-chain theorem: chain 42 is not in the
registry. -/
theorem unsupported_chain_validation_error_witness :
    fund NETWORK_CONFIGS envFunded (some addrOk) (some "42")
      = { status := 400, body := FundResponse.unsupportedChain "42"
          calls := [], events := [] } ∧
    checkBalance NETWORK_CONFIGS cenvOk (some addrOk) (some "42")
      = { status := 400, body := CheckResponse.unsupportedChain "42"
          calls := [] } :=
  unsupported_chain_validation_error NETWORK_CONFIGS envFunded cenvOk
    (some addrOk) (some "42") (by decide) (by decide) rfl (by decide)

/-- Once the pipeline reaches the idempotency check with a target balance
below the threshold, the submission attempt is in the trace whatever the
submission and confirmation outcomes are. -/
theorem fundLedger_submit_mem (env : FundEnv) (cfg : NetworkConfig)
    (a c : String) (fb b : Nat)
    (h : env.funderBalance = Except.ok fb)
    (hge : parseEther cfg.fundingAmount ≤ fb)
    (ht : env.targetBalance = Except.ok b)
    (hb : b < parseEther cfg.fundingAmount / 2) :
    LedgerCall.submitTransfer a (parseEther cfg.fundingAmount)
      ∈ (fundLedger env cfg a c).calls := by
  cases hs : env.sendResult with
  | error e =>
    rw [fundLedger_sendErr env cfg a c fb b e h hge ht hb hs]
    simp
  | ok tx =>
    cases hw : env.waitResult with
    | error e =>
      rw [fundLedger_waitErr env cfg a c fb b tx e h hge ht hb hs hw]
      simp
    | ok rcpt =>
      rw [fundLedger_success env cfg a c fb b tx rcpt h hge ht hb hs hw]
      simp

/-- Claim C1: with validation and lookup passed, at most one outbound
transfer is submitted in a call; no transfer is submitted whenever the
observed target balance is at least half the configured amount; a balance
of exactly half yields the already-funded response with no transfer,
while one unit below half (custodian check passed) puts a submission in
the trace. -/
theorem fund_at_most_one_transfer_and_threshold
    (registry : List (String × NetworkConfig)) (env : FundEnv)
    (address chainId : Option String) (cfg : NetworkConfig)
    (h1 : jsFalsy address = false) (h2 : jsFalsy chainId = false)
    (h3 : env.isValidAddress = true)
    (h4 : lookupConfig registry (chainId.getD "") = some cfg) :
    transferCount (fund registry env address chainId).calls ≤ 1 ∧
    (∀ b : Nat, env.targetBalance = Except.ok b →
      parseEther cfg.fundingAmount / 2 ≤ b →
      transferCount (fund registry env address chainId).calls = 0) ∧
    (∀ fb b : Nat, jsFalsy env.funderKey = false →
      env.funderBalance = Except.ok fb →
      parseEther cfg.fundingAmount ≤ fb →
      env.targetBalance = Except.ok b →
      ((b = parseEther cfg.fundingAmount / 2 →
        (fund registry env address chainId).body
          = FundResponse.alreadyFunded b ∧
        transferCount (fund registry env address chainId).calls = 0) ∧
       (b + 1 = parseEther cfg.fundingAmount / 2 →
        LedgerCall.submitTransfer (address.getD "")
            (parseEther cfg.fundingAmount)
          ∈ (fund registry env address chainId).calls))) := by
  refine ⟨transferCount_fund_le_one registry env address chainId, ?_, ?_⟩
  · intro b htb hge
    by_cases hk : jsFalsy env.funderKey = true
    · rw [fund_noKey registry env address chainId cfg h1 h2 h3 h4 hk]
      simp [transferCount, List.countP_nil]
    · have hk' : jsFalsy env.funderKey = false := by
        simpa using hk
      rw [fund_entry registry env address chainId cfg h1 h2 h3 h4 hk']
      cases hfb : env.funderBalance with
      | error e =>
        rw [fundLedger_funderErr env cfg _ _ e hfb]
        simp [transferCount, List.countP_cons, List.countP_nil, isTransfer]
      | ok fb =>
        by_cases hlt : fb < parseEther cfg.fundingAmount
        · rw [fundLedger_underfunded env cfg _ _ fb hfb hlt]
          simp [transferCount, List.countP_cons, List.countP_nil, isTransfer]
        · have hge2 : parseEther cfg.fundingAmount ≤ fb := Nat.not_lt.mp hlt
          rw [fundLedger_already env cfg _ _ fb b hfb hge2 htb hge]
          simp [transferCount, List.countP_cons, List.countP_nil, isTransfer]
  · intro fb b hk hfb hge htb
    constructor
    · intro hbeq
      have hhalf : parseEther cfg.fundingAmount / 2 ≤ b := hbeq.ge
      rw [fund_entry registry env address chainId cfg h1 h2 h3 h4 hk,
          fundLedger_already env cfg _ _ fb b hfb hge htb hhalf]
      refine ⟨rfl, ?_⟩
      simp [transferCount, List.countP_cons, List.countP_nil, isTransfer]
    · intro hb1
      have hblt : b < parseEther cfg.fundingAmount / 2 := by omega
      rw [fund_entry registry env address chainId cfg h1 h2 h3 h4 hk]
      exact fundLedger_submit_mem env cfg _ _ fb b hfb hge htb hblt

/-- Witness for the idempotency theorem: on chain 97 a target holding
exactly half the amount is not funded again, and one wei below half leads
to a submission. -/
theorem fund_at_most_one_transfer_and_threshold_witness :
    transferCount
      (fund NETWORK_CONFIGS envAlreadyHalf (some addrOk) (some "97")).calls
      ≤ 1 ∧
    transferCount
      (fund NETWORK_CONFIGS envAlreadyHalf (some addrOk) (some "97")).calls
      = 0 ∧
    (fund NETWORK_CONFIGS envAlreadyHalf (some addrOk) (some "97")).body
      = FundResponse.alreadyFunded (parseEther "0.0025" / 2) ∧
    LedgerCall.submitTransfer addrOk (parseEther "0.0025")
      ∈ (fund NETWORK_CONFIGS envBelowHalf (some addrOk) (some "97")).calls := by
  have hA := fund_at_most_one_transfer_and_threshold NETWORK_CONFIGS
    envAlreadyHalf (some addrOk) (some "97") bscTestnet
    (by decide) (by decide) rfl (by decide)
  have hB := fund_at_most_one_transfer_and_threshold NETWORK_CONFIGS
    envBelowHalf (some addrOk) (some "97") bscTestnet
    (by decide) (by decide) rfl (by decide)
  refine ⟨hA.1, ?_, ?_, ?_⟩
  · exact hA.2.1 (parseEther "0.0025" / 2) rfl (by decide)
  · exact ((hA.2.2 (parseEther "1.0") (parseEther "0.0025" / 2)
      (by decide) rfl (by decide) rfl).1 rfl).1
  · exact (hB.2.2 (parseEther "1.0") (parseEther "0.0025" / 2 - 1)
      (by decide) rfl (by decide) rfl).2 (by decide)

/-- Counterexample to claim C3 as stated: two successful runs differing
only in the confirming block number produce identical addressFunded
events, so the published event does not carry the confirming block that
the returned outcome carries. -/
theorem fund_event_omits_confirming_block :
    (fund NETWORK_CONFIGS envFunded (some addrOk) (some "97")).events
      = (fund NETWORK_CONFIGS envFundedAltBlock (some addrOk) (some "97")).events ∧
    (fund NETWORK_CONFIGS envFunded (some addrOk) (some "97")).body
      = FundResponse.funded "0xabc123" 4242 "0.0025" ∧
    (fund NETWORK_CONFIGS envFundedAltBlock (some addrOk) (some "97")).body
      = FundResponse.funded "0xabc123" 9999 "0.0025" := by
  refine ⟨rfl, rfl, rfl⟩

/-- Claim C3 (amended): a run that submits and confirms returns 200 with
the funded outcome carrying the transaction hash, the confirming block
number and the amount, and broadcasts exactly one addressFunded event
carrying the address, the chainId, the amount and the transaction hash —
but not the confirming block number. -/
theorem fund_success_outcome_and_event
    (registry : List (String × NetworkConfig)) (env : FundEnv)
    (address chainId : Option String) (cfg : NetworkConfig)
    (fb b : Nat) (tx : Tx) (rcpt : Receipt)
    (h1 : jsFalsy address = false) (h2 : jsFalsy chainId = false)
    (h3 : env.isValidAddress = true)
    (h4 : lookupConfig registry (chainId.getD "") = some cfg)
    (h5 : jsFalsy env.funderKey = false)
    (h6 : env.funderBalance = Except.ok fb)
    (h7 : parseEther cfg.fundingAmount ≤ fb)
    (h8 : env.targetBalance = Except.ok b)
    (h9 : b < parseEther cfg.fundingAmount / 2)
    (h10 : env.sendResult = Except.ok tx)
    (h11 : env.waitResult = Except.ok rcpt) :
    (fund registry env address chainId).status = 200 ∧
    (fund registry env address chainId).body
      = FundResponse.funded tx.hash rcpt.blockNumber cfg.fundingAmount ∧
    (fund registry env address chainId).events
      = [WsEvent.addressFunded (address.getD "") (chainId.getD "")
           cfg.fundingAmount tx.hash] := by
  rw [fund_entry registry env address chainId cfg h1 h2 h3 h4 h5,
      fundLedger_success env cfg _ _ fb b tx rcpt h6 h7 h8 h9 h10 h11]
  exact ⟨rfl, rfl, rfl⟩

/-- Witness for the amended success theorem at the end-to-end scenario of
the spec: chain 97, one whole unit of custodian balance, empty target. -/
theorem fund_success_outcome_and_event_witness :
    (fund NETWORK_CONFIGS envFunded (some addrOk) (some "97")).status
      = 200 ∧
    (fund NETWORK_CONFIGS envFunded (some addrOk) (some "97")).body
      = FundResponse.funded "0xabc123" 4242 "0.0025" ∧
    (fund NETWORK_CONFIGS envFunded (some addrOk) (some "97")).events
      = [WsEvent.addressFunded addrOk "97" "0.0025" "0xabc123"] :=
  fund_success_outcome_and_event NETWORK_CONFIGS envFunded
    (some addrOk) (some "97") bscTestnet (parseEther "1.0") 0 txFix rcptFix
    (by decide) (by decide) rfl (by decide) (by decide) rfl (by decide)
    rfl (by decide) rfl rfl

/-- Every run of the fund handler answers with status 200, 400 or 500. -/
theorem fund_status_cases (registry : List (String × NetworkConfig))
    (env : FundEnv) (address chainId : Option String) :
    (fund registry env address chainId).status = 200 ∨
    (fund registry env address chainId).status = 400 ∨
    (fund registry env address chainId).status = 500 := by
  unfold fund fundLedger
  repeat' split
  all_goals dsimp only
  all_goals try split_ifs
  all_goals simp [catchFund_status]

/-- Claim C7: the fund pipeline never leaves an error unmapped: every run
answers with one of the three statuses, and a thrown error at the
custodian query, the target query, the submission or the confirmation
wait whose code is neither recognized condition is surfaced as the
generic 500 funding-failed response carrying the error message. -/
theorem fund_catch_maps_all_failures
    (registry : List (String × NetworkConfig)) (env : FundEnv)
    (address chainId : Option String) (cfg : NetworkConfig) (e : JsError)
    (h1 : jsFalsy address = false) (h2 : jsFalsy chainId = false)
    (h3 : env.isValidAddress = true)
    (h4 : lookupConfig registry (chainId.getD "") = some cfg)
    (h5 : jsFalsy env.funderKey = false)
    (hc1 : e.code ≠ some "INSUFFICIENT_FUNDS")
    (hc2 : e.code ≠ some "NETWORK_ERROR") :
    ((fund registry env address chainId).status = 200 ∨
     (fund registry env address chainId).status = 400 ∨
     (fund registry env address chainId).status = 500) ∧
    (env.funderBalance = Except.error e →
      (fund registry env address chainId).status = 500 ∧
      (fund registry env address chainId).body
        = FundResponse.fundingFailed e.message) ∧
    (∀ fb : Nat, env.funderBalance = Except.ok fb →
      parseEther cfg.fundingAmount ≤ fb →
      env.targetBalance = Except.error e →
      (fund registry env address chainId).status = 500 ∧
      (fund registry env address chainId).body
        = FundResponse.fundingFailed e.message) ∧
    (∀ fb b : Nat, env.funderBalance = Except.ok fb →
      parseEther cfg.fundingAmount ≤ fb →
      env.targetBalance = Except.ok b →
      b < parseEther cfg.fundingAmount / 2 →
      env.sendResult = Except.error e →
      (fund registry env address chainId).status = 500 ∧
      (fund registry env address chainId).body
        = FundResponse.fundingFailed e.message) ∧
    (∀ (fb b : Nat) (tx : Tx), env.funderBalance = Except.ok fb →
      parseEther cfg.fundingAmount ≤ fb →
      env.targetBalance = Except.ok b →
      b < parseEther cfg.fundingAmount / 2 →
      env.sendResult = Except.ok tx →
      env.waitResult = Except.error e →
      (fund registry env address chainId).status = 500 ∧
      (fund registry env address chainId).body
        = FundResponse.fundingFailed e.message) := by
  have hgen := catchFund_generic e hc1 hc2
  refine ⟨fund_status_cases registry env address chainId, ?_, ?_, ?_, ?_⟩
  · intro hfb
    rw [fund_entry registry env address chainId cfg h1 h2 h3 h4 h5,
        fundLedger_funderErr env cfg _ _ e hfb]
    simp [hgen]
  · intro fb hfb hge htb
    rw [fund_entry registry env address chainId cfg h1 h2 h3 h4 h5,
        fundLedger_targetErr env cfg _ _ fb e hfb hge htb]
    simp [hgen]
  · intro fb b hfb hge htb hb hs
    rw [fund_entry registry env address chainId cfg h1 h2 h3 h4 h5,
        fundLedger_sendErr env cfg _ _ fb b e hfb hge htb hb hs]
    simp [hgen]
  · intro fb b tx hfb hge htb hb hs hw
    rw [fund_entry registry env address chainId cfg h1 h2 h3 h4 h5,
        fundLedger_waitErr env cfg _ _ fb b tx e hfb hge htb hb hs hw]
    simp [hgen]

/-- Witness for the catch-mapping theorem: a submission that throws a
codeless transport error is answered 500 with the generic body. -/
theorem fund_catch_maps_all_failures_witness :
    (fund NETWORK_CONFIGS envSendFails (some addrOk) (some "97")).status
      = 500 ∧
    (fund NETWORK_CONFIGS envSendFails (some addrOk) (some "97")).body
      = FundResponse.fundingFailed "connection refused" := by
  have h := fund_catch_maps_all_failures NETWORK_CONFIGS envSendFails
    (some addrOk) (some "97") bscTestnet errDown
    (by decide) (by decide) rfl (by decide) (by decide) (by decide) (by decide)
  exact h.2.2.2.1 (parseEther "1.0") 0 rfl (by decide) rfl (by decide) rfl

/-- Claim C8: with the secret configured, the funding-status aggregation
answers 200 with one entry per registry network; every network whose
balance query succeeds reports its full data, every failing network gets
the error marker, and no per-network failure aborts the aggregation. -/
theorem fundingStatus_per_network_isolation
    (registry : List (String × NetworkConfig)) (env : StatusEnv)
    (hkey : jsFalsy env.funderKey = false) :
    (fundingStatus registry env).status = 200 ∧
    ∃ entries : List (String × NetworkStatus),
      (fundingStatus registry env).body
        = StatusResponse.configured env.funderAddress entries ∧
      entries.length = registry.length ∧
      (∀ p ∈ registry, ∀ b : Nat, env.balanceOn p.1 = Except.ok b →
        (p.1, NetworkStatus.ok p.2.name b p.2.fundingAmount
          (decide (parseEther p.2.fundingAmount ≤ b))) ∈ entries) ∧
      (∀ p ∈ registry, ∀ e : JsError, env.balanceOn p.1 = Except.error e →
        (p.1, NetworkStatus.err p.2.name) ∈ entries) := by
  constructor
  · unfold fundingStatus
    rw [hkey]
    simp
  · refine ⟨registry.map (statusEntry env), ?_, ?_, ?_, ?_⟩
    · unfold fundingStatus
      rw [hkey]
      simp
    · simp
    · intro p hp b hb
      have hpe : statusEntry env p
          = (p.1, NetworkStatus.ok p.2.name b p.2.fundingAmount
              (decide (parseEther p.2.fundingAmount ≤ b))) := by
        unfold statusEntry
        rw [hb]
      exact hpe ▸ List.mem_map_of_mem (statusEntry env) hp
    · intro p hp e he
      have hpe : statusEntry env p = (p.1, NetworkStatus.err p.2.name) := by
        unfold statusEntry
        rw [he]
      exact hpe ▸ List.mem_map_of_mem (statusEntry env) hp

/-- Witness for the aggregation theorem: chain 97 unreachable, the Aurora
network reachable; the failing network gets the error entry while the
other still reports full data, and both entries are present. -/
theorem fundingStatus_per_network_isolation_witness :
    (fundingStatus NETWORK_CONFIGS statusEnvMixed).status = 200 ∧
    ∃ entries : List (String × NetworkStatus),
      (fundingStatus NETWORK_CONFIGS statusEnvMixed).body
        = StatusResponse.configured "0xFunder" entries ∧
      entries.length = 2 ∧
      ("97", NetworkStatus.err "BSC Testnet") ∈ entries ∧
      ("1313161555",
        NetworkStatus.ok "Aurora Testnet" (parseEther "1.0") "0.0025" true)
        ∈ entries := by
  obtain ⟨hs, entries, hbody, hlen, hok, herr⟩ :=
    fundingStatus_per_network_isolation NETWORK_CONFIGS
      statusEnvMixed (by decide)
  refine ⟨hs, entries, hbody, hlen, ?_, ?_⟩
  · exact herr ("97", bscTestnet) (by simp [NETWORK_CONFIGS]) errDown rfl
  · exact hok ("1313161555", auroraTestnet) (by simp [NETWORK_CONFIGS])
      (parseEther "1.0") rfl

/-- With both parameters present and the chain found, a successful ledger
query makes check-balance answer 200 with the balance data. -/
theorem checkBalance_ok (registry : List (String × NetworkConfig))
    (cenv : CheckEnv) (address chainId : Option String)
    (cfg : NetworkConfig) (b : Nat)
    (h1 : jsFalsy address = false) (h2 : jsFalsy chainId = false)
    (h4 : lookupConfig registry (chainId.getD "") = some cfg)
    (hb : cenv.balanceResult = Except.ok b) :
    checkBalance registry cenv address chainId
      = { status := 200
          body := CheckResponse.ok (address.getD "") (chainId.getD "") b
                    cfg.name
          calls := [LedgerCall.queryBalance (address.getD "")] } := by
  unfold checkBalance
  rw [h1, h2, h4, hb]
  simp

/-- With both parameters present and the chain found, a throwing ledger
query makes check-balance answer 500 with the generic failure body. -/
theorem checkBalance_err (registry : List (String × NetworkConfig))
    (cenv : CheckEnv) (address chainId : Option String)
    (cfg : NetworkConfig) (e : JsError)
    (h1 : jsFalsy address = false) (h2 : jsFalsy chainId = false)
    (h4 : lookupConfig registry (chainId.getD "") = some cfg)
    (hb : cenv.balanceResult = Except.error e) :
    checkBalance registry cenv address chainId
      = { status := 500, body := CheckResponse.failedCheck e.message
          calls := [LedgerCall.queryBalance (address.getD "")] } := by
  unfold checkBalance
  rw [h1, h2, h4, hb]
  simp

/-- Claim C9: check-balance performs no syntactic address validation:
with both parameters present and a supported chain, the ledger query is
issued for the given address string whatever it is; a throwing query is
answered 500 with the generic failure body; in contrast, the fund
operation answers 400 with no ledger call whenever validation fails. -/
theorem checkBalance_no_address_validation
    (registry : List (String × NetworkConfig)) (cenv : CheckEnv)
    (fenv : FundEnv) (address chainId : Option String) (cfg : NetworkConfig)
    (h1 : jsFalsy address = false) (h2 : jsFalsy chainId = false)
    (h4 : lookupConfig registry (chainId.getD "") = some cfg) :
    (checkBalance registry cenv address chainId).calls
      = [LedgerCall.queryBalance (address.getD "")] ∧
    (∀ e : JsError, cenv.balanceResult = Except.error e →
      (checkBalance registry cenv address chainId).status = 500 ∧
      (checkBalance registry cenv address chainId).body
        = CheckResponse.failedCheck e.message) ∧
    (fenv.isValidAddress = false →
      fund registry fenv address chainId
        = { status := 400, body := FundResponse.invalidAddress
            calls := [], events := [] }) := by
  refine ⟨?_, ?_, ?_⟩
  · cases hb : cenv.balanceResult with
    | ok b =>
      rw [checkBalance_ok registry cenv address chainId cfg b h1 h2 h4 hb]
    | error e =>
      rw [checkBalance_err registry cenv address chainId cfg e h1 h2 h4 hb]
  · intro e he
    rw [checkBalance_err registry cenv address chainId cfg e h1 h2 h4 he]
    exact ⟨rfl, rfl⟩
  · exact fun h3 => fund_invalid registry fenv address chainId h1 h2 h3

/-- Witness for the no-validation theorem: a malformed address string is
sent to the ledger by check-balance and answered 500 on failure, while
fund rejects it with 400 and an empty trace. -/
theorem checkBalance_no_address_validation_witness :
    (checkBalance NETWORK_CONFIGS cenvErr (some addrBad) (some "97")).calls
      = [LedgerCall.queryBalance addrBad] ∧
    (checkBalance NETWORK_CONFIGS cenvErr (some addrBad) (some "97")).status
      = 500 ∧
    (checkBalance NETWORK_CONFIGS cenvErr (some addrBad) (some "97")).body
      = CheckResponse.failedCheck "connection refused" ∧
    fund NETWORK_CONFIGS envInvalidAddr (some addrBad) (some "97")
      = { status := 400, body := FundResponse.invalidAddress
          calls := [], events := [] } := by
  have h := checkBalance_no_address_validation NETWORK_CONFIGS cenvErr
    envInvalidAddr (some addrBad) (some "97") bscTestnet
    (by decide) (by decide) (by decide)
  exact ⟨h.1, (h.2.1 errDown rfl).1, (h.2.1 errDown rfl).2, h.2.2 rfl⟩

/-- Claim C10: the idempotency threshold is the floor of half the wei
funding amount: on a network whose configured amount is an odd number of
wei, a target balance of exactly the floor — half a wei below the exact
mathematical half — is classified already funded and no transfer is
submitted. -/
theorem minimum_balance_floor_division
    (registry : List (String × NetworkConfig)) (env : FundEnv)
    (address chainId : Option String) (cfg : NetworkConfig) (fb : Nat)
    (h1 : jsFalsy address = false) (h2 : jsFalsy chainId = false)
    (h3 : env.isValidAddress = true)
    (h4 : lookupConfig registry (chainId.getD "") = some cfg)
    (h5 : jsFalsy env.funderKey = false)
    (h6 : env.funderBalance = Except.ok fb)
    (h7 : parseEther cfg.fundingAmount ≤ fb)
    (hodd : parseEther cfg.fundingAmount % 2 = 1)
    (h8 : env.targetBalance
      = Except.ok (parseEther cfg.fundingAmount / 2)) :
    (fund registry env address chainId).body
      = FundResponse.alreadyFunded (parseEther cfg.fundingAmount / 2) ∧
    transferCount (fund registry env address chainId).calls = 0 ∧
    2 * (parseEther cfg.fundingAmount / 2) + 1
      = parseEther cfg.fundingAmount := by
  rw [fund_entry registry env address chainId cfg h1 h2 h3 h4 h5,
      fundLedger_already env cfg _ _ fb _ h6 h7 h8 (le_refl _)]
  refine ⟨rfl, ?_, ?_⟩
  · simp [transferCount, List.countP_cons, List.countP_nil, isTransfer]
  · omega

/-- Witness for the floor-division theorem: a 3-wei funding amount gives
threshold 1 wei, and a 1-wei target is already funded. -/
theorem minimum_balance_floor_division_witness :
    (fund oddRegistry envOddHalf (some addrOk) (some "1")).body
      = FundResponse.alreadyFunded 1 ∧
    transferCount
      (fund oddRegistry envOddHalf (some addrOk) (some "1")).calls = 0 ∧
    2 * (parseEther "0.000000000000000003" / 2) + 1
      = parseEther "0.000000000000000003" := by
  have h := minimum_balance_floor_division oddRegistry envOddHalf
    (some addrOk) (some "1") oddCfg 10
    (by decide) (by decide) rfl (by decide) (by decide) rfl (by decide)
    (by decide) rfl
  exact ⟨h.1, h.2.1, h.2.2⟩
